import Mathlib

/-
Verification development for the EventoManager auth/session core.
The TypeScript sources embedded here are the auth module (hashPassword,
comparePasswords, the passport strategies and the auth routes) and the
storage layer (DatabaseStorage over the drizzle schema in shared/schema.ts).
JS strings are modelled as lists of characters; JS `||` defaulting is
modelled with explicit helpers that treat the empty string as falsy;
fallible calls (thrown exceptions, DB constraint violations) are modelled
with Except.
-/

namespace EventoAuth

/-- JS strings, modelled as lists of UTF-16-ish characters. -/
abbrev Str := List Char

/-- JS `a || b` for an optional string `a`: `undefined`/`null` and the empty
string are falsy and fall through to `b`. -/
def jsOrStr (a : Option Str) (b : Str) : Str :=
  match a with
  | some v => if v.isEmpty then b else v
  | none => b

/-- JS `a || null` for an optional string: the empty string collapses to null. -/
def jsOrNull (a : Option Str) : Option Str :=
  match a with
  | some v => if v.isEmpty then none else some v
  | none => none

/-- JS `a || null` for an optional number: `0` collapses to null. -/
def jsOrNullNat (a : Option Nat) : Option Nat :=
  match a with
  | some 0 => none
  | some n => some n
  | none => none

/-- JS template-literal rendering of a nullable string: `null` prints as "null". -/
def jsShowOptStr (a : Option Str) : Str :=
  match a with
  | some s => s
  | none => "null".data

/-- JS `String.prototype.split(sep)` for a one-character separator.
The result list is never empty. -/
def splitOnChar (sep : Char) : Str → List Str
  | [] => [[]]
  | c :: rest =>
    let r := splitOnChar sep rest
    if c = sep then [] :: r
    else (c :: r.headD []) :: r.tail

/-- JS `String.prototype.toLowerCase`, character by character. -/
def toLowerStr (s : Str) : Str := s.map Char.toLower

/-- The characters the regex class `\s` matches (the ones that occur in
display names): space, tab, newline, vertical tab, form feed, carriage return. -/
def isJsWhitespace (c : Char) : Bool :=
  c.toNat = 32 || c.toNat = 9 || c.toNat = 10 || c.toNat = 11 || c.toNat = 12 || c.toNat = 13

/-- JS `s.replace(/\s+/g, ".")`: each maximal run of whitespace becomes a
single dot.  The boolean argument records whether the previous character
was part of a whitespace run. -/
def replaceWsRunsAux : Bool → Str → Str
  | _, [] => []
  | prevWs, c :: rest =>
    if isJsWhitespace c then
      (if prevWs then [] else ['.']) ++ replaceWsRunsAux true rest
    else c :: replaceWsRunsAux false rest

/-- JS `s.replace(/\s+/g, ".")`. -/
def replaceWsRuns (s : Str) : Str := replaceWsRunsAux false s

/-! ### Hex encoding, as used by `Buffer.toString("hex")` / `Buffer.from(s, "hex")` -/

/-- The lower-case hex digit for a value below 16. -/
def hexDigitChar (n : Nat) : Char :=
  if n < 10 then Char.ofNat (48 + n) else Char.ofNat (87 + n)

/-- `Buffer.toString("hex")`: two lower-case hex digits per byte. -/
def bytesToHex : List Nat → Str
  | [] => []
  | b :: bs => hexDigitChar (b / 16) :: hexDigitChar (b % 16) :: bytesToHex bs

/-- The value of a hex digit, if the character is one. -/
def hexVal? (c : Char) : Option Nat :=
  if 48 ≤ c.toNat ∧ c.toNat ≤ 57 then some (c.toNat - 48)
  else if 97 ≤ c.toNat ∧ c.toNat ≤ 102 then some (c.toNat - 87)
  else if 65 ≤ c.toNat ∧ c.toNat ≤ 70 then some (c.toNat - 55)
  else none

/-- `Buffer.from(s, "hex")`: consume pairs of hex digits, stopping at the
first invalid pair (or odd tail), as Node does. -/
def hexToBytes : Str → List Nat
  | c1 :: c2 :: rest =>
    match hexVal? c1, hexVal? c2 with
    | some h, some l => (16 * h + l) :: hexToBytes rest
    | _, _ => []
  | _ => []

/-! ### The password hasher (src/server/auth.ts lines 28-39) -/

/-- Error message for `crypto.timingSafeEqual` on buffers of different length
(Node throws `ERR_CRYPTO_TIMING_SAFE_EQUAL_LENGTH`). -/
def timingSafeEqualLengthError : Str :=
  "RangeError: Input buffers must have the same byte length".data

/-- Error message for `crypto.scrypt` invoked with an `undefined` salt
(Node throws a TypeError). -/
def scryptSaltTypeError : Str :=
  "TypeError: the salt argument must be of type string".data

/-- `crypto.timingSafeEqual(a, b)`: throws when the buffers differ in
length, otherwise compares contents. -/
def timingSafeEqual (a b : List Nat) : Except Str Bool :=
  if a.length = b.length then Except.ok (decide (a = b)) else Except.error timingSafeEqualLengthError

/-- `hashPassword` (auth.ts line 28): derive a 64-byte key with scrypt from
the password and the hex of 16 random salt bytes, and store
`"<derivedHex>.<saltHex>"`.  The scrypt key-derivation function and the
random salt bytes are parameters of the model. -/
def hashPassword (scryptFn : Str → Str → List Nat) (saltBytes : List Nat) (password : Str) : Str :=
  bytesToHex (scryptFn password (bytesToHex saltBytes)) ++ '.' :: bytesToHex saltBytes

/-- `comparePasswords` (auth.ts line 34): split the stored string on ".",
re-derive with the embedded salt and compare with `timingSafeEqual`.
When the stored string has no "." the destructured salt is `undefined` and
the scrypt call throws; when the parsed digest and the derived key differ
in length `timingSafeEqual` throws.  Both throws are modelled as errors. -/
def comparePasswords (scryptFn : Str → Str → List Nat) (supplied stored : Str) : Except Str Bool :=
  let parts := splitOnChar '.' stored
  let hashed := parts.headD []
  match parts[1]? with
  | none => Except.error scryptSaltTypeError
  | some salt =>
    let hashedBuf := hexToBytes hashed
    let suppliedBuf := scryptFn supplied salt
    timingSafeEqual hashedBuf suppliedBuf

/-- A concrete stand-in key-derivation function used to instantiate the
scrypt parameter in closed statements: 63 zero bytes followed by the
password length modulo 256, so distinct-length passwords get distinct keys. -/
def modelScrypt (p : Str) (_s : Str) : List Nat :=
  List.replicate 63 0 ++ [p.length % 256]

/-! ### Data model (src/shared/schema.ts)

A row of the `users` table; `role` and `provider` are kept as strings, as
the route handlers compare them with string literals.  `createdAt` and the
activity `timestamp` are abstract clock readings.  -/

structure User where
  id : Nat
  username : Str
  email : Str
  password : Option Str
  name : Option Str
  role : Str
  provider : Str
  providerId : Option Str
  avatarUrl : Option Str
  createdAt : Nat
deriving DecidableEq, Repr

/-- A row of the `activities` table. -/
structure Activity where
  id : Nat
  eventId : Option Nat
  attendeeId : Option Nat
  userId : Option Nat
  action : Str
  timestamp : Nat
  description : Str
deriving DecidableEq, Repr

/-- The insert payload for `users` (id and createdAt omitted, optional
columns defaulting to undefined). -/
structure InsertUser where
  username : Str
  email : Str
  password : Option Str := none
  name : Option Str := none
  role : Option Str := none
  provider : Option Str := none
  providerId : Option Str := none
  avatarUrl : Option Str := none
deriving Repr

/-- The insert payload for `activities`. -/
structure InsertActivity where
  eventId : Option Nat := none
  attendeeId : Option Nat := none
  userId : Option Nat := none
  action : Str
  timestamp : Nat
  description : Str
deriving Repr

/-- A partial update of a `users` row, as passed to `storage.updateUser`.
A `some` field is present in the update object; for nullable columns the
inner option is the (possibly null) new value. -/
structure UserUpdate where
  email : Option Str := none
  password : Option (Option Str) := none
  name : Option (Option Str) := none
  avatarUrl : Option (Option Str) := none
deriving Repr

/-- The persistent state behind `DatabaseStorage`: the `users` and
`activities` tables in insertion order plus the two serial-id counters. -/
structure Storage where
  users : List User
  activities : List Activity
  nextUserId : Nat
  nextActivityId : Nat
deriving DecidableEq, Repr

/-- A database error surfaced by drizzle: violation of a unique index. -/
inductive DbError where
  | uniqueViolation (constraint : Str)
deriving DecidableEq, Repr

/-! ### Storage operations (DatabaseStorage in the storage module)

`select ... where eq` with `result[0]` returns the first matching row. -/

/-- `storage.getUser(id)`. -/
def getUser (st : Storage) (id : Nat) : Option User :=
  st.users.find? (fun u => decide (u.id = id))

/-- `storage.getUserByUsername(username)` — case-sensitive exact match. -/
def getUserByUsername (st : Storage) (username : Str) : Option User :=
  st.users.find? (fun u => decide (u.username = username))

/-- `storage.getUserByEmail(email)`. -/
def getUserByEmail (st : Storage) (email : Str) : Option User :=
  st.users.find? (fun u => decide (u.email = email))

/-- `storage.getUserByProviderId(provider, providerId)`. -/
def getUserByProviderId (st : Storage) (provider providerId : Str) : Option User :=
  st.users.find? (fun u => decide (u.provider = provider ∧ u.providerId = some providerId))

/-- `storage.createUser(user)`: insert with the JS `|| null` / `|| "user"` /
`|| "local"` defaulting done by DatabaseStorage.createUser.  The only
unique index declared on the `users` table in shared/schema.ts is
`email_idx` on `email`; inserting a duplicate email violates it and the
insert throws, modelled as a `uniqueViolation` error.  No constraint
guards `username` or `(provider, providerId)`. -/
def createUser (st : Storage) (now : Nat) (u : InsertUser) : Except DbError (User × Storage) :=
  if st.users.any (fun w => decide (w.email = u.email)) then
    Except.error (DbError.uniqueViolation "email_idx".data)
  else
    let newUser : User :=
      { id := st.nextUserId
        username := u.username
        email := u.email
        password := jsOrNull u.password
        name := jsOrNull u.name
        role := jsOrStr u.role "user".data
        provider := jsOrStr u.provider "local".data
        providerId := jsOrNull u.providerId
        avatarUrl := jsOrNull u.avatarUrl
        createdAt := now }
    Except.ok (newUser, { st with users := st.users ++ [newUser], nextUserId := st.nextUserId + 1 })

/-- `storage.createActivity(activity)`, including the `|| null` collapsing
of the optional foreign keys. -/
def createActivity (st : Storage) (a : InsertActivity) : Activity × Storage :=
  let act : Activity :=
    { id := st.nextActivityId
      eventId := jsOrNullNat a.eventId
      attendeeId := jsOrNullNat a.attendeeId
      userId := jsOrNullNat a.userId
      action := a.action
      timestamp := a.timestamp
      description := a.description }
  (act, { st with activities := st.activities ++ [act], nextActivityId := st.nextActivityId + 1 })

/-- Apply a partial update to a user row. -/
def applyUserUpdate (u : User) (upd : UserUpdate) : User :=
  { u with
    email := upd.email.getD u.email
    password := upd.password.getD u.password
    name := upd.name.getD u.name
    avatarUrl := upd.avatarUrl.getD u.avatarUrl }

/-- Whether an update payload would write an email already used by a
different row (the `email_idx` unique index also guards updates). -/
def emailUpdateConflicts (st : Storage) (id : Nat) : Option Str → Bool
  | some e => st.users.any (fun w => decide (w.email = e ∧ w.id ≠ id))
  | none => false

/-- `storage.updateUser(id, partial)`: update the row(s) with the given id,
returning the updated row, or none when no row matches. -/
def updateUser (st : Storage) (id : Nat) (upd : UserUpdate) :
    Except DbError (Option (User × Storage)) :=
  if emailUpdateConflicts st id upd.email then
    Except.error (DbError.uniqueViolation "email_idx".data)
  else
    match st.users.find? (fun u => decide (u.id = id)) with
    | none => Except.ok none
    | some u =>
      let u' := applyUserUpdate u upd
      Except.ok (some (u', { st with users := st.users.map (fun w => if w.id = id then u' else w) }))

/-- `storage.setUserRole(id, role)`: targeted role mutation. -/
def setUserRole (st : Storage) (id : Nat) (role : Str) : Option User × Storage :=
  match st.users.find? (fun u => decide (u.id = id)) with
  | none => (none, st)
  | some u =>
    let u' := { u with role := role }
    (some u', { st with users := st.users.map (fun w => if w.id = id then u' else w) })

/-! ### Sessions and request identity (passport serialize/deserialize) -/

/-- The session attached to a request: the serialized user id, or none when
no session cookie resolves (missing, expired, or destroyed). -/
abbrev Session := Option Nat

/-- `passport.deserializeUser` composed with `req.isAuthenticated`: the
request identity is the user loaded from the serialized id, when any. -/
def resolveIdentity (st : Storage) (sess : Session) : Option User :=
  sess.bind (fun id => getUser st id)

/-- The observable outcome of a route handler: an HTTP reply with a status
code and the `message` field of the JSON body (or the plain-text body),
or a redirect. -/
inductive RouteResponse where
  | reply (status : Nat) (message : Option Str)
  | redirect (location : Str)
deriving DecidableEq, Repr

/-! ### Auth routes (the auth module, `setupAuth`) -/

/-- The generic failure message of the local strategy. -/
def invalidCredentialsMsg : Str := "Credenciais inválidas".data

/-- The `LocalStrategy` verify callback: look the username up, fail with the
generic message when the user is absent, has no (or an empty) stored
password, or the comparison returns false; errors thrown by
`comparePasswords` propagate to `done(error)`. -/
def localStrategyVerify (scryptFn : Str → Str → List Nat) (st : Storage)
    (username password : Str) : Except Str (Option User) :=
  match getUserByUsername st username with
  | none => Except.ok none
  | some user =>
    match user.password with
    | none => Except.ok none
    | some stored =>
      if stored.isEmpty then Except.ok none
      else
        match comparePasswords scryptFn password stored with
        | Except.error e => Except.error e
        | Except.ok true => Except.ok (some user)
        | Except.ok false => Except.ok none

/-- `POST /api/login`: run the local strategy; 401 with the strategy's
message on failure, establish the session, log a "login" activity and
reply 200 on success; a thrown error goes to `next(err)` (a 500-class
reply). -/
def apiLogin (scryptFn : Str → Str → List Nat) (now : Nat) (st : Storage) (sess : Session)
    (username password : Str) : RouteResponse × Storage × Session :=
  match localStrategyVerify scryptFn st username password with
  | Except.error _ => (RouteResponse.reply 500 none, st, sess)
  | Except.ok none => (RouteResponse.reply 401 (some invalidCredentialsMsg), st, sess)
  | Except.ok (some user) =>
    let st' := (createActivity st
      { action := "login".data
        userId := some user.id
        timestamp := now
        description := "Usuário logado: ".data ++ user.username }).2
    (RouteResponse.reply 200 none, st', some user.id)

/-- `POST /api/logout`: capture `req.user`, destroy the session, log a
"logout" activity only when an identity was resolved, always reply 200. -/
def apiLogout (now : Nat) (st : Storage) (sess : Session) : RouteResponse × Storage × Session :=
  match resolveIdentity st sess with
  | some u =>
    let st' := (createActivity st
      { action := "logout".data
        userId := some u.id
        timestamp := now
        description := "Usuário saiu: ".data ++ u.username }).2
    (RouteResponse.reply 200 none, st', none)
  | none => (RouteResponse.reply 200 none, st, none)

/-- `GET /api/user`: 200 with the user payload when authenticated, else 401. -/
def apiCurrentUser (st : Storage) (sess : Session) : RouteResponse :=
  match resolveIdentity st sess with
  | some _ => RouteResponse.reply 200 none
  | none => RouteResponse.reply 401 (some "Não autenticado".data)

/-- `POST /api/register`: application-side duplicate checks on username and
email, then hash the password, create the user, log a "register" activity
and establish the session. -/
def apiRegister (scryptFn : Str → Str → List Nat) (saltBytes : List Nat) (now : Nat)
    (st : Storage) (sess : Session) (username email password : Str) (name : Option Str) :
    RouteResponse × Storage × Session :=
  match getUserByUsername st username with
  | some _ => (RouteResponse.reply 400 (some "Nome de usuário já existe".data), st, sess)
  | none =>
    match getUserByEmail st email with
    | some _ => (RouteResponse.reply 400 (some "Email já está em uso".data), st, sess)
    | none =>
      match createUser st now
        { username := username
          email := email
          password := some (hashPassword scryptFn saltBytes password)
          name := jsOrNull name
          role := some "user".data
          provider := some "local".data } with
      | Except.error _ => (RouteResponse.reply 500 none, st, sess)
      | Except.ok (user, st1) =>
        let st2 := (createActivity st1
          { action := "register".data
            userId := some user.id
            timestamp := now
            description := "Novo usuário registrado: ".data ++ username }).2
        (RouteResponse.reply 201 none, st2, some user.id)

/-! ### The Google strategy and its callback route -/

/-- The shape of a Google OAuth profile as consumed by the verify callback:
the external id, the display name, and the (possibly empty) lists of
email and photo values. -/
structure GoogleProfile where
  id : Str
  displayName : Str
  emails : List Str := []
  photos : List Str := []
deriving Repr

/-- The email chosen for an auto-provisioned Google account:
`profile.emails?.[0]?.value || ` followed by `"<id>@google.com"`. -/
def googleProfileEmail (profile : GoogleProfile) : Str :=
  jsOrStr profile.emails.head? (profile.id ++ "@google.com".data)

/-- The `GoogleStrategy` verify callback: look the (provider, providerId)
pair up; when absent, auto-provision a user (username from the display
name with whitespace runs replaced by "." then lowercased, role "user",
email from the profile or synthesized) and log a "register" activity. -/
def googleVerify (now : Nat) (st : Storage) (profile : GoogleProfile) :
    Except DbError User × Storage :=
  match getUserByProviderId st "google".data profile.id with
  | some user => (Except.ok user, st)
  | none =>
    match createUser st now
      { username := toLowerStr (replaceWsRuns profile.displayName)
        email := googleProfileEmail profile
        name := some profile.displayName
        provider := some "google".data
        providerId := some profile.id
        avatarUrl := jsOrNull profile.photos.head?
        role := some "user".data } with
    | Except.error e => (Except.error e, st)
    | Except.ok (user, st1) =>
      let st2 := (createActivity st1
        { action := "register".data
          userId := some user.id
          timestamp := now
          description := "Novo usuário registrado via Google: ".data ++ jsShowOptStr user.name }).2
      (Except.ok user, st2)

/-- `GET /auth/google/callback`: run the strategy; on error redirect to the
auth page with an error flag; on success establish the session, log a
"login" activity and redirect home. -/
def googleCallback (now : Nat) (st : Storage) (sess : Session) (profile : GoogleProfile) :
    RouteResponse × Storage × Session :=
  match googleVerify now st profile with
  | (Except.error _, st') => (RouteResponse.redirect "/auth?error=auth_error".data, st', sess)
  | (Except.ok user, st') =>
    let st2 := (createActivity st'
      { action := "login".data
        userId := some user.id
        timestamp := now
        description := "Usuário logado via Google: ".data ++ user.username }).2
    (RouteResponse.redirect "/".data, st2, some user.id)

/-! ### Dev-bypass login route (`GET /auth/dev/login`) -/

/-- The query parameters of the dev-bypass route. -/
structure DevLoginQuery where
  email : Option Str := none
  name : Option Str := none
  admin : Option Str := none
deriving Repr

/-- The tail of the dev-bypass route shared by the fresh and the reused
account: `req.login` establishes the session, then a "login" activity is
logged and the handler redirects home. -/
def devLoginEstablish (now : Nat) (st : Storage) (username : Str) (user : User) :
    RouteResponse × Storage × Session :=
  let st' := (createActivity st
    { action := "login".data
      userId := some user.id
      timestamp := now
      description := "Login de desenvolvimento: ".data ++ username }).2
  (RouteResponse.redirect "/".data, st', some user.id)

/-- `GET /auth/dev/login`: under `NODE_ENV === "production"` the route
replies 404 "Not Found" before touching the query, the storage, or the
session.  Otherwise it defaults the email and name, reuses the account
with that email or provisions a "dev"-provider account (admin role only
when the admin query flag is exactly "true"), logging a "register"
activity for a fresh account, and logs in.  A thrown error redirects to
the auth page. -/
def devLogin (nodeEnv : Str) (now : Nat) (st : Storage) (sess : Session) (q : DevLoginQuery) :
    RouteResponse × Storage × Session :=
  if nodeEnv = "production".data then
    (RouteResponse.reply 404 (some "Not Found".data), st, sess)
  else
    let email := jsOrStr q.email "dev@example.com".data
    let name := jsOrStr q.name "Desenvolvedor".data
    let username := toLowerStr ((splitOnChar '@' email).headD [])
    match getUserByEmail st email with
    | some user => devLoginEstablish now st username user
    | none =>
      match createUser st now
        { username := username
          email := email
          name := some name
          provider := some "dev".data
          providerId := some "dev-account".data
          role := some (if q.admin = some "true".data then "admin".data else "user".data) } with
      | Except.error _ => (RouteResponse.redirect "/auth?error=dev_error".data, st, sess)
      | Except.ok (user, st1) =>
        let st2 := (createActivity st1
          { action := "register".data
            userId := some user.id
            timestamp := now
            description := "Usuário de desenvolvimento criado: ".data ++ username }).2
        devLoginEstablish now st2 username user

/-! ### Admin promotion route (`POST /api/user/:id/make-admin`) -/

/-- Denial message of the unauthenticated branch shared by the gated routes. -/
def notAuthenticatedMsg : Str := "Não autenticado".data

/-- Denial message of the non-admin branch of the promotion route. -/
def adminOnlyMsg : Str :=
  "Acesso negado. Somente administradores podem realizar esta operação.".data

/-- `POST /api/user/:id/make-admin`: 401 when unauthenticated, 403 when the
caller's role is not admin, 404 when the target id matches no user;
otherwise set the target's role to admin and log an "admin" activity
whose userId is the actor's id and whose description names the target and
the actor by username. -/
def makeAdmin (now : Nat) (st : Storage) (sess : Session) (targetId : Nat) :
    RouteResponse × Storage :=
  match resolveIdentity st sess with
  | none => (RouteResponse.reply 401 (some notAuthenticatedMsg), st)
  | some adminUser =>
    if adminUser.role ≠ "admin".data then
      (RouteResponse.reply 403 (some adminOnlyMsg), st)
    else
      match getUser st targetId with
      | none => (RouteResponse.reply 404 (some "Usuário não encontrado".data), st)
      | some user =>
        let st1 := (setUserRole st targetId "admin".data).2
        let st2 := (createActivity st1
          { action := "admin".data
            userId := some adminUser.id
            timestamp := now
            description := "Usuário ".data ++ user.username ++
              " promovido a administrador por ".data ++ adminUser.username }).2
        (RouteResponse.reply 200 none, st2)

/-! ### Profile update and password change routes -/

/-- The body of `PATCH /api/users/:id`: each field may be absent; a present
field carries the (possibly null) new value, except email which the
handler compares and looks up as a string. -/
structure ProfileBody where
  name : Option (Option Str) := none
  email : Option Str := none
  avatarUrl : Option (Option Str) := none
deriving Repr

/-- Denial message of `PATCH /api/users/:id` for a non-owner non-admin. -/
def profileDeniedMsg : Str :=
  "Acesso negado. Você só pode atualizar seu próprio perfil.".data

/-- `PATCH /api/users/:id`: the owner or any admin may update; a changed
email is rejected when another user already holds it; then the row is
updated and a "profile_update" activity logged. -/
def updateProfile (now : Nat) (st : Storage) (sess : Session) (targetId : Nat)
    (body : ProfileBody) : RouteResponse × Storage :=
  match resolveIdentity st sess with
  | none => (RouteResponse.reply 401 (some notAuthenticatedMsg), st)
  | some caller =>
    if caller.id ≠ targetId ∧ caller.role ≠ "admin".data then
      (RouteResponse.reply 403 (some profileDeniedMsg), st)
    else
      match getUser st targetId with
      | none => (RouteResponse.reply 404 (some "Usuário não encontrado".data), st)
      | some user =>
        let emailConflict :=
          match body.email with
          | some e =>
            if e = user.email then false
            else
              match getUserByEmail st e with
              | some w => decide (w.id ≠ targetId)
              | none => false
          | none => false
        if emailConflict then
          (RouteResponse.reply 400 (some "Este email já está em uso".data), st)
        else
          match updateUser st targetId
            { name := body.name, email := body.email, avatarUrl := body.avatarUrl } with
          | Except.error _ => (RouteResponse.reply 500 none, st)
          | Except.ok res =>
            let st1 := match res with | some p => p.2 | none => st
            let st2 := (createActivity st1
              { action := "profile_update".data
                userId := some caller.id
                timestamp := now
                description := "Perfil de ".data ++ user.username ++ " atualizado".data }).2
            (RouteResponse.reply 200 none, st2)

/-- Denial message of the password-change route for a non-owner. -/
def changePasswordDeniedMsg : Str :=
  "Acesso negado. Você só pode alterar sua própria senha.".data

/-- `POST /api/users/:id/change-password`: 401 when unauthenticated, 403
whenever the caller's id differs from the target id (no admin exception),
404 for a missing target, 400 for a non-local provider, 401 when the
current password does not verify; otherwise store the new hash and log a
"password_change" activity. -/
def changePassword (scryptFn : Str → Str → List Nat) (saltBytes : List Nat) (now : Nat)
    (st : Storage) (sess : Session) (targetId : Nat) (currentPassword newPassword : Str) :
    RouteResponse × Storage :=
  match resolveIdentity st sess with
  | none => (RouteResponse.reply 401 (some notAuthenticatedMsg), st)
  | some caller =>
    if caller.id ≠ targetId then
      (RouteResponse.reply 403 (some changePasswordDeniedMsg), st)
    else
      match getUser st targetId with
      | none => (RouteResponse.reply 404 (some "Usuário não encontrado".data), st)
      | some user =>
        if user.provider ≠ "local".data then
          (RouteResponse.reply 400 (some ("Não é possível alterar a senha para contas de ".data ++
            user.provider ++ ". Use o provedor de autenticação original.".data)), st)
        else
          let verified : Except Str Bool :=
            match user.password with
            | none => Except.ok false
            | some stored =>
              if stored.isEmpty then Except.ok false
              else comparePasswords scryptFn currentPassword stored
          match verified with
          | Except.error _ => (RouteResponse.reply 500 none, st)
          | Except.ok false => (RouteResponse.reply 401 (some "Senha atual incorreta".data), st)
          | Except.ok true =>
            match updateUser st targetId
              { password := some (some (hashPassword scryptFn saltBytes newPassword)) } with
            | Except.error _ => (RouteResponse.reply 500 none, st)
            | Except.ok res =>
              let st1 := match res with | some p => p.2 | none => st
              let st2 := (createActivity st1
                { action := "password_change".data
                  userId := some targetId
                  timestamp := now
                  description := user.username ++ " alterou sua senha".data }).2
              (RouteResponse.reply 200 none, st2)

/-! ### Referencing a user id from an activity record -/

/-- Whether the first list occurs as a contiguous segment at the head of
the second. -/
def beginsWith : Str → Str → Bool
  | [], _ => true
  | _ :: _, [] => false
  | a :: as, b :: bs => a = b && beginsWith as bs

/-- Whether the first list occurs as a contiguous segment anywhere in the
second. -/
def hasSegment (needle : Str) : Str → Bool
  | [] => needle.isEmpty
  | c :: rest => beginsWith needle (c :: rest) || hasSegment needle rest

/-- An activity record references a numeric id when one of its id fields
holds it or its decimal rendering occurs in the description. -/
def referencesId (a : Activity) (n : Nat) : Prop :=
  a.userId = some n ∨ a.eventId = some n ∨ a.attendeeId = some n ∨
    hasSegment (Nat.repr n).data a.description = true

instance (a : Activity) (n : Nat) : Decidable (referencesId a n) := by
  unfold referencesId; infer_instance

/-! ### Concrete sample data for closed statements -/

/-- An administrator account. -/
def aliceAdmin : User :=
  { id := 1, username := "alice".data, email := "alice@x.com".data, password := none,
    name := none, role := "admin".data, provider := "local".data, providerId := none,
    avatarUrl := none, createdAt := 0 }

/-- An ordinary account. -/
def bobUser : User :=
  { id := 2, username := "bob".data, email := "bob@x.com".data, password := none,
    name := none, role := "user".data, provider := "local".data, providerId := none,
    avatarUrl := none, createdAt := 0 }

/-- A state holding the administrator and the ordinary account. -/
def twoUserStore : Storage :=
  { users := [aliceAdmin, bobUser], activities := [], nextUserId := 3, nextActivityId := 1 }

/-- The stored hash of the password "secret" under the model scrypt function. -/
def storedSecret : Str := hashPassword modelScrypt [7] "secret".data

/-- A local account with the stored hash of "secret". -/
def carol : User :=
  { id := 1, username := "carol".data, email := "carol@x.com".data,
    password := some storedSecret, name := none, role := "user".data,
    provider := "local".data, providerId := none, avatarUrl := none, createdAt := 0 }

/-- A state holding only the local account `carol`. -/
def carolStore : Storage :=
  { users := [carol], activities := [], nextUserId := 2, nextActivityId := 1 }

/-- The empty persistent state. -/
def emptyStore : Storage :=
  { users := [], activities := [], nextUserId := 1, nextActivityId := 1 }

/-- A Google profile without email or photo values. -/
def devProfile : GoogleProfile := { id := "123".data, displayName := "Dev User".data }

/-- A Google profile never seen by any state used with it. -/
def freshProfile : GoogleProfile := { id := "g9".data, displayName := "New Person".data }

/-- A federated account used to exhibit missing storage constraints. -/
def gUser : User :=
  { id := 1, username := "alice".data, email := "a1@x.com".data, password := none,
    name := none, role := "user".data, provider := "google".data,
    providerId := some "g1".data, avatarUrl := none, createdAt := 0 }

/-- A state holding only `gUser`. -/
def gStore : Storage :=
  { users := [gUser], activities := [], nextUserId := 2, nextActivityId := 1 }

/-- An insert payload duplicating `gUser`'s username and provider identity,
with a fresh email. -/
def gDupInsert : InsertUser :=
  { username := "alice".data, email := "a2@x.com".data,
    provider := some "google".data, providerId := some "g1".data }

/-- A Google profile matching `gUser`'s provider identity. -/
def g1Profile : GoogleProfile := { id := "g1".data, displayName := "Alice G".data }

/-! ### Helper lemmas -/

theorem hexVal_hexDigitChar {n : Nat} (h : n < 16) : hexVal? (hexDigitChar n) = some n := by
  interval_cases n <;> decide

theorem hexDigitChar_ne_dot {n : Nat} (h : n < 16) : hexDigitChar n ≠ '.' := by
  interval_cases n <;> decide

theorem dot_not_mem_bytesToHex {bs : List Nat} (h : ∀ b ∈ bs, b < 256) :
    '.' ∉ bytesToHex bs := by
  induction bs with
  | nil => simp [bytesToHex]
  | cons b bs ih =>
    have hb : b < 256 := h b (by simp)
    have h1 : b / 16 < 16 := by omega
    have h2 : b % 16 < 16 := Nat.mod_lt _ (by norm_num)
    simp only [bytesToHex, List.mem_cons, not_or]
    refine ⟨?_, ?_, ih (fun x hx => h x (by simp [hx]))⟩
    · exact fun hc => hexDigitChar_ne_dot h1 hc.symm
    · exact fun hc => hexDigitChar_ne_dot h2 hc.symm

theorem hexToBytes_bytesToHex {bs : List Nat} (h : ∀ b ∈ bs, b < 256) :
    hexToBytes (bytesToHex bs) = bs := by
  induction bs with
  | nil => rfl
  | cons b bs ih =>
    have hb : b < 256 := h b (by simp)
    have h1 : b / 16 < 16 := by omega
    have h2 : b % 16 < 16 := Nat.mod_lt _ (by norm_num)
    simp only [bytesToHex, hexToBytes, hexVal_hexDigitChar h1, hexVal_hexDigitChar h2]
    have hdm : 16 * (b / 16) + b % 16 = b := by omega
    rw [hdm, ih (fun x hx => h x (by simp [hx]))]

theorem splitOnChar_ne_nil (sep : Char) (s : Str) : splitOnChar sep s ≠ [] := by
  cases s with
  | nil => simp [splitOnChar]
  | cons c rest =>
    simp only [splitOnChar]
    split <;> simp

theorem splitOnChar_of_not_mem {sep : Char} {s : Str} (h : sep ∉ s) :
    splitOnChar sep s = [s] := by
  induction s with
  | nil => rfl
  | cons c rest ih =>
    have hc : c ≠ sep := fun hc => h (by simp [hc])
    have hrest : sep ∉ rest := fun hr => h (by simp [hr])
    simp [splitOnChar, hc, ih hrest]

theorem splitOnChar_append {sep : Char} {s1 s2 : Str} (h : sep ∉ s1) :
    splitOnChar sep (s1 ++ sep :: s2) = s1 :: splitOnChar sep s2 := by
  induction s1 with
  | nil => simp [splitOnChar]
  | cons c rest ih =>
    have hc : c ≠ sep := fun hc => h (by simp [hc])
    have hrest : sep ∉ rest := fun hr => h (by simp [hr])
    simp [splitOnChar, hc, ih hrest]

/-- Evaluation of `comparePasswords` on a stored string whose digest part
contains no dot: the salt is everything up to the next dot of the tail. -/
theorem comparePasswords_parse {scryptFn : Str → Str → List Nat} {digestHex rest : Str}
    (hd : '.' ∉ digestHex) (supplied : Str) :
    comparePasswords scryptFn supplied (digestHex ++ '.' :: rest) =
      timingSafeEqual (hexToBytes digestHex)
        (scryptFn supplied ((splitOnChar '.' rest).headD [])) := by
  have hsplit := @splitOnChar_append '.' digestHex rest hd
  have hne := splitOnChar_ne_nil '.' rest
  unfold comparePasswords
  rw [hsplit]
  cases hr : splitOnChar '.' rest with
  | nil => exact absurd hr hne
  | cons a t => simp

/-- Replacing every row with a given id in a list leaves `find?` for that id
pointing at the replacement, provided some row matched before. -/
theorem find?_map_replace {l : List User} {tid : Nat} {target u' : User}
    (hid : u'.id = tid)
    (hfind : l.find? (fun u => decide (u.id = tid)) = some target) :
    (l.map (fun w => if w.id = tid then u' else w)).find?
      (fun u => decide (u.id = tid)) = some u' := by
  induction l with
  | nil => simp at hfind
  | cons a l ih =>
    by_cases ha : a.id = tid
    · simp [List.find?, ha, hid]
    · rw [List.find?_cons_of_neg _ (by simpa using ha)] at hfind
      simp only [List.map_cons, if_neg ha]
      rw [List.find?_cons_of_neg _ (by simpa using ha)]
      exact ih hfind

/-- After `setUserRole st tid r` on a state where `getUser st tid = some target`,
the looked-up row carries the new role, and the activity log is untouched. -/
theorem getUser_setUserRole {st : Storage} {tid : Nat} {target : User} (r : Str)
    (hfind : getUser st tid = some target) :
    (setUserRole st tid r).1 = some { target with role := r } ∧
    getUser (setUserRole st tid r).2 tid = some { target with role := r } ∧
    (setUserRole st tid r).2.activities = st.activities ∧
    (setUserRole st tid r).2.nextActivityId = st.nextActivityId := by
  unfold getUser at hfind
  have htid : target.id = tid := by
    have := List.find?_some hfind
    simpa using this
  unfold setUserRole
  rw [hfind]
  refine ⟨rfl, ?_, rfl, rfl⟩
  unfold getUser
  exact find?_map_replace (by simpa using htid) hfind

/-- The derived keys of the model scrypt function are 64 bytes long. -/
theorem modelScrypt_length (p s : Str) : (modelScrypt p s).length = 64 := by
  simp [modelScrypt]

/-- Every byte of a model-scrypt key is below 256. -/
theorem modelScrypt_bytes (p s : Str) : ∀ b ∈ modelScrypt p s, b < 256 := by
  intro b hb
  simp only [modelScrypt, List.mem_append, List.mem_replicate, List.mem_singleton] at hb
  rcases hb with h | h
  · omega
  · subst h; exact Nat.mod_lt _ (by norm_num)

/-- Evaluation of the logout route when no identity resolves. -/
theorem apiLogout_of_none {st : Storage} {sess : Session} (now : Nat)
    (h : resolveIdentity st sess = none) :
    apiLogout now st sess = (RouteResponse.reply 200 none, st, none) := by
  unfold apiLogout
  rw [h]

/-- Evaluation of the logout route when an identity resolves. -/
theorem apiLogout_of_some {st : Storage} {sess : Session} {u : User} (now : Nat)
    (h : resolveIdentity st sess = some u) :
    apiLogout now st sess = (RouteResponse.reply 200 none,
      (createActivity st
        { action := "logout".data, userId := some u.id, timestamp := now,
          description := "Usuário saiu: ".data ++ u.username }).2, none) := by
  unfold apiLogout
  rw [h]

/-! ### Claim theorems -/

/-- C1: under the production configuration flag (`NODE_ENV = "production"`),
every request to the dev-bypass login endpoint gets a 404 "Not Found"
reply, the persistent state is unchanged (no User record is created), and
the session is unchanged (no session is established). -/
theorem devLogin_production_disabled (now : Nat) (st : Storage) (sess : Session)
    (q : DevLoginQuery) :
    devLogin "production".data now st sess q =
      (RouteResponse.reply 404 (some "Not Found".data), st, sess) := by
  simp [devLogin]

/-- C2: a login attempt with an unknown username and a login attempt with an
existing username but a non-matching password both produce the identical
401 reply with the same generic message (and leave the state and session
untouched), so the two failure cases are indistinguishable to the caller. -/
theorem login_no_enumeration_leak (scryptFn : Str → Str → List Nat) (now : Nat)
    (st : Storage) (sess : Session) (uAbsent pAbsent uExisting pWrong : Str)
    (user : User) (stored : Str)
    (h1 : getUserByUsername st uAbsent = none)
    (h2 : getUserByUsername st uExisting = some user)
    (hpw : user.password = some stored)
    (hcmp : comparePasswords scryptFn pWrong stored = Except.ok false) :
    apiLogin scryptFn now st sess uAbsent pAbsent =
      (RouteResponse.reply 401 (some invalidCredentialsMsg), st, sess) ∧
    apiLogin scryptFn now st sess uExisting pWrong =
      (RouteResponse.reply 401 (some invalidCredentialsMsg), st, sess) := by
  constructor
  · simp [apiLogin, localStrategyVerify, h1]
  · by_cases hs : stored.isEmpty
    · rw [List.isEmpty_iff] at hs
      subst hs
      simp [comparePasswords, splitOnChar] at hcmp
    · simp [apiLogin, localStrategyVerify, h2, hpw, hs, hcmp]

/-- Witness for C2 at a concrete state: the store holds only `carol`; a
login as the unknown "dave" and a login as "carol" with the wrong
password yield the same 401 reply. -/
theorem login_no_enumeration_leak_witness :
    apiLogin modelScrypt 0 carolStore none "dave".data "pw".data =
      (RouteResponse.reply 401 (some invalidCredentialsMsg), carolStore, none) ∧
    apiLogin modelScrypt 0 carolStore none "carol".data "wrong".data =
      (RouteResponse.reply 401 (some invalidCredentialsMsg), carolStore, none) :=
  login_no_enumeration_leak modelScrypt 0 carolStore none "dave".data "pw".data
    "carol".data "wrong".data carol storedSecret rfl rfl rfl rfl

/-- C4: verifying a password against its own hash succeeds, and verifying a
different password against that hash fails whenever the derived keys do
not collide (the hypotheses say the salt and the derived keys are byte
strings and the derivation yields 64-byte keys, as scrypt does). -/
theorem hash_verify_roundtrip (scryptFn : Str → Str → List Nat) (saltBytes : List Nat)
    (p p1 p2 : Str)
    (hsalt : ∀ b ∈ saltBytes, b < 256)
    (hkey : ∀ q s, ∀ b ∈ scryptFn q s, b < 256)
    (hlen : ∀ q s, (scryptFn q s).length = 64)
    (hne : p1 ≠ p2)
    (hcoll : scryptFn p1 (bytesToHex saltBytes) ≠ scryptFn p2 (bytesToHex saltBytes)) :
    comparePasswords scryptFn p (hashPassword scryptFn saltBytes p) = Except.ok true ∧
    comparePasswords scryptFn p1 (hashPassword scryptFn saltBytes p2) = Except.ok false := by
  have hsaltdot : '.' ∉ bytesToHex saltBytes := dot_not_mem_bytesToHex hsalt
  constructor
  · unfold hashPassword
    rw [comparePasswords_parse (dot_not_mem_bytesToHex (hkey _ _)) p]
    rw [splitOnChar_of_not_mem hsaltdot]
    simp only [List.headD]
    rw [hexToBytes_bytesToHex (hkey _ _)]
    simp [timingSafeEqual]
  · unfold hashPassword
    rw [comparePasswords_parse (dot_not_mem_bytesToHex (hkey _ _)) p1]
    rw [splitOnChar_of_not_mem hsaltdot]
    simp only [List.headD]
    rw [hexToBytes_bytesToHex (hkey _ _)]
    unfold timingSafeEqual
    rw [if_pos (by rw [hlen, hlen])]
    rw [decide_eq_false (fun h => hcoll h.symm)]

/-- Witness for C4 with the model derivation function, salt byte 7, password
"secret", and the distinct pair "a" / "bc" (whose model keys differ). -/
theorem hash_verify_roundtrip_witness :
    comparePasswords modelScrypt "secret".data
      (hashPassword modelScrypt [7] "secret".data) = Except.ok true ∧
    comparePasswords modelScrypt "a".data
      (hashPassword modelScrypt [7] "bc".data) = Except.ok false :=
  hash_verify_roundtrip modelScrypt [7] "secret".data "a".data "bc".data
    (by decide) modelScrypt_bytes modelScrypt_length (by decide) (by decide)

/-- C8 counterexample: `comparePasswords` does not return false on a
malformed stored hash — it raises.  With no "." separator the scrypt call
receives an undefined salt and throws; with a digest part shorter than
the derived key, `timingSafeEqual` throws on the length mismatch. -/
theorem comparePasswords_raises_on_malformed :
    comparePasswords modelScrypt "x".data "abc".data =
      Except.error scryptSaltTypeError ∧
    comparePasswords modelScrypt "x".data "ff.ab".data =
      Except.error timingSafeEqualLengthError := ⟨rfl, rfl⟩

/-- C8 (amended): `comparePasswords` returns a boolean exactly when the
stored string has a "." separator and its digest part parses to a buffer
of the derived-key length; a missing separator raises the scrypt salt
TypeError and a digest/key length mismatch raises the timingSafeEqual
length error — the error propagates past the call boundary instead of
yielding false. -/
theorem comparePasswords_malformed_behavior (scryptFn : Str → Str → List Nat)
    (supplied stored : Str)
    (hlen : ∀ q s, (scryptFn q s).length = 64) :
    ('.' ∉ stored →
      comparePasswords scryptFn supplied stored = Except.error scryptSaltTypeError) ∧
    (∀ digestHex rest, stored = digestHex ++ '.' :: rest → '.' ∉ digestHex →
      ((hexToBytes digestHex).length ≠ 64 →
        comparePasswords scryptFn supplied stored = Except.error timingSafeEqualLengthError) ∧
      ((hexToBytes digestHex).length = 64 →
        ∃ b, comparePasswords scryptFn supplied stored = Except.ok b)) := by
  constructor
  · intro hd
    unfold comparePasswords
    rw [splitOnChar_of_not_mem hd]
    rfl
  · intro digestHex rest hst hd
    subst hst
    rw [comparePasswords_parse hd supplied]
    unfold timingSafeEqual
    constructor
    · intro hne
      rw [if_neg (by rw [hlen]; exact hne)]
    · intro he
      rw [if_pos (by rw [hlen]; exact he)]
      exact ⟨_, rfl⟩

/-- Witness for the amended C8 at concrete malformed inputs: "abc" has no
separator and raises the salt TypeError; "ff.ab" has a one-byte digest
and raises the length error. -/
theorem comparePasswords_malformed_behavior_witness :
    comparePasswords modelScrypt "x".data "abc".data =
      Except.error scryptSaltTypeError ∧
    comparePasswords modelScrypt "x".data "ff.ab".data =
      Except.error timingSafeEqualLengthError := by
  constructor
  · exact (comparePasswords_malformed_behavior modelScrypt "x".data "abc".data
      modelScrypt_length).1 (by decide)
  · exact ((comparePasswords_malformed_behavior modelScrypt "x".data "ff.ab".data
      modelScrypt_length).2 "ff".data "ab".data (by decide) (by decide)).1 (by decide)

/-- C9: logout always replies 200 (also on a missing or dangling session),
clears the session so that the current-identity route then replies 401, a
second logout replies 200 without any further state change, and a
"logout" activity is recorded exactly when an identity was resolved. -/
theorem logout_idempotent (now now2 : Nat) (st : Storage) (sess : Session) :
    (apiLogout now st sess).1 = RouteResponse.reply 200 none ∧
    (apiLogout now st sess).2.2 = none ∧
    apiCurrentUser (apiLogout now st sess).2.1 (apiLogout now st sess).2.2 =
      RouteResponse.reply 401 (some notAuthenticatedMsg) ∧
    apiLogout now2 (apiLogout now st sess).2.1 (apiLogout now st sess).2.2 =
      (RouteResponse.reply 200 none, (apiLogout now st sess).2.1, none) ∧
    (resolveIdentity st sess = none → (apiLogout now st sess).2.1 = st) ∧
    (∀ u, resolveIdentity st sess = some u →
      (apiLogout now st sess).2.1.activities = st.activities ++
        [{ id := st.nextActivityId, eventId := none, attendeeId := none,
           userId := jsOrNullNat (some u.id), action := "logout".data,
           timestamp := now, description := "Usuário saiu: ".data ++ u.username }]) := by
  cases hres : resolveIdentity st sess with
  | none =>
    rw [apiLogout_of_none now hres]
    refine ⟨rfl, rfl, rfl, apiLogout_of_none now2 rfl, fun _ => rfl, ?_⟩
    intro u hu
    cases hu
  | some u =>
    rw [apiLogout_of_some now hres]
    refine ⟨rfl, rfl, rfl, apiLogout_of_none now2 rfl, ?_, ?_⟩
    · intro h
      cases h
    · intro v hv
      injection hv with hv
      subst hv
      simp [createActivity, jsOrNullNat]

/-- Witness for C9 at a concrete state: logging out the session of the
administrator replies 200 and appends exactly the "logout" record. -/
theorem logout_idempotent_witness :
    (apiLogout 5 twoUserStore (some 1)).1 = RouteResponse.reply 200 none ∧
    (apiLogout 5 twoUserStore (some 1)).2.1.activities = twoUserStore.activities ++
      [{ id := twoUserStore.nextActivityId, eventId := none, attendeeId := none,
         userId := jsOrNullNat (some aliceAdmin.id), action := "logout".data,
         timestamp := 5, description := "Usuário saiu: ".data ++ aliceAdmin.username }] :=
  ⟨(logout_idempotent 5 6 twoUserStore (some 1)).1,
   (logout_idempotent 5 6 twoUserStore (some 1)).2.2.2.2.2 aliceAdmin rfl⟩

/-- C10: change-password is strictly self-service — an authenticated caller
whose id differs from the target id is denied with 403 and the state is
unchanged, with no admin exception; while (for contrast) an admin caller
may run the profile update on that same foreign target and gets 200. -/
theorem changePassword_strictly_self_service (scryptFn : Str → Str → List Nat)
    (saltBytes : List Nat) (now : Nat) (st : Storage) (sess : Session) (targetId : Nat)
    (cur new : Str) (caller : User)
    (hres : resolveIdentity st sess = some caller)
    (hne : caller.id ≠ targetId) :
    changePassword scryptFn saltBytes now st sess targetId cur new =
      (RouteResponse.reply 403 (some changePasswordDeniedMsg), st) ∧
    (caller.role = "admin".data → ∀ target, getUser st targetId = some target →
      (updateProfile now st sess targetId {}).1 = RouteResponse.reply 200 none) := by
  constructor
  · simp [changePassword, hres, hne]
  · intro hrole target htarget
    have hcond : ¬ (caller.id ≠ targetId ∧ caller.role ≠ "admin".data) := by
      simp [hrole]
    have hfind : st.users.find? (fun u => decide (u.id = targetId)) = some target := htarget
    simp [updateProfile, hres, hcond, htarget, updateUser, emailUpdateConflicts, hfind]

/-- Witness for C10: the admin `aliceAdmin` (id 1) calling change-password
on `bobUser` (id 2) is denied with 403 and the state is unchanged, yet
her profile update on the same target succeeds. -/
theorem changePassword_strictly_self_service_witness :
    changePassword modelScrypt [7] 9 twoUserStore (some 1) 2 "a".data "b".data =
      (RouteResponse.reply 403 (some changePasswordDeniedMsg), twoUserStore) ∧
    (updateProfile 9 twoUserStore (some 1) 2 {}).1 = RouteResponse.reply 200 none :=
  ⟨(changePassword_strictly_self_service modelScrypt [7] 9 twoUserStore (some 1) 2
      "a".data "b".data aliceAdmin rfl (by decide)).1,
   (changePassword_strictly_self_service modelScrypt [7] 9 twoUserStore (some 1) 2
      "a".data "b".data aliceAdmin rfl (by decide)).2 rfl bobUser rfl⟩

/-- C3 counterexample: a successful promotion (the admin with id 1 promotes
the user with id 2) replies 200 and emits one Activity record, but that
record does not reference the target's id 2 in any of its id fields nor
as a decimal segment of its description — only the actor's id and the two
usernames are recorded. -/
theorem makeAdmin_activity_lacks_target_id :
    (makeAdmin 7 twoUserStore (some 1) 2).1 = RouteResponse.reply 200 none ∧
    (makeAdmin 7 twoUserStore (some 1) 2).2.activities.length = 1 ∧
    ∀ a ∈ (makeAdmin 7 twoUserStore (some 1) 2).2.activities, ¬ referencesId a 2 := by
  decide

/-- C3 (amended): the promotion route denies 401 when unauthenticated,
denies 403 (a distinguishable reply) when the caller is not an admin —
both without state change — and for an admin caller with an existing
target it replies 200, sets the target's role to admin, and appends one
"admin" Activity whose userId field is the actor's id and whose
description names the target and the actor by username (the target's id
itself is not recorded). -/
theorem makeAdmin_gate_and_effect (now : Nat) (st : Storage) (sess : Session) (targetId : Nat) :
    (resolveIdentity st sess = none →
      makeAdmin now st sess targetId = (RouteResponse.reply 401 (some notAuthenticatedMsg), st)) ∧
    (∀ caller, resolveIdentity st sess = some caller → caller.role ≠ "admin".data →
      makeAdmin now st sess targetId = (RouteResponse.reply 403 (some adminOnlyMsg), st)) ∧
    (∀ caller target, resolveIdentity st sess = some caller → caller.role = "admin".data →
      getUser st targetId = some target →
      (makeAdmin now st sess targetId).1 = RouteResponse.reply 200 none ∧
      getUser (makeAdmin now st sess targetId).2 targetId =
        some { target with role := "admin".data } ∧
      (makeAdmin now st sess targetId).2.activities = st.activities ++
        [{ id := st.nextActivityId, eventId := none, attendeeId := none,
           userId := jsOrNullNat (some caller.id), action := "admin".data, timestamp := now,
           description := "Usuário ".data ++ target.username ++
             " promovido a administrador por ".data ++ caller.username }]) := by
  refine ⟨?_, ?_, ?_⟩
  · intro h
    simp only [makeAdmin, h]
  · intro caller hres hrole
    simp only [makeAdmin, hres]
    rw [if_pos hrole]
  · intro caller target hres hrole htarget
    obtain ⟨h1, h2, h3, h4⟩ := getUser_setUserRole "admin".data htarget
    simp only [makeAdmin, hres, htarget, if_neg (fun h : caller.role ≠ "admin".data => h hrole)]
    refine ⟨by trivial, h2, ?_⟩
    simp only [createActivity, jsOrNullNat, h3, h4]

/-- Witness for the amended C3: the three branches at the concrete two-user
state — no session gives 401, the ordinary user's session gives 403, and
the admin session promotes the user with id 2. -/
theorem makeAdmin_gate_and_effect_witness :
    makeAdmin 7 twoUserStore none 2 =
      (RouteResponse.reply 401 (some notAuthenticatedMsg), twoUserStore) ∧
    makeAdmin 7 twoUserStore (some 2) 2 =
      (RouteResponse.reply 403 (some adminOnlyMsg), twoUserStore) ∧
    (makeAdmin 7 twoUserStore (some 1) 2).1 = RouteResponse.reply 200 none ∧
    getUser (makeAdmin 7 twoUserStore (some 1) 2).2 2 =
      some { bobUser with role := "admin".data } ∧
    (makeAdmin 7 twoUserStore (some 1) 2).2.activities = twoUserStore.activities ++
      [{ id := twoUserStore.nextActivityId, eventId := none, attendeeId := none,
         userId := jsOrNullNat (some aliceAdmin.id), action := "admin".data, timestamp := 7,
         description := "Usuário ".data ++ bobUser.username ++
           " promovido a administrador por ".data ++ aliceAdmin.username }] := by
  refine ⟨?_, ?_, ?_⟩
  · exact (makeAdmin_gate_and_effect 7 twoUserStore none 2).1 rfl
  · exact (makeAdmin_gate_and_effect 7 twoUserStore (some 2) 2).2.1 bobUser rfl (by decide)
  · exact (makeAdmin_gate_and_effect 7 twoUserStore (some 1) 2).2.2 aliceAdmin bobUser rfl rfl rfl

/-- C5 counterexample: for a Google profile with id "123" and no email
values, the auto-provisioned account's email is "123@google.com" — the
code synthesizes `{providerId}@google.com`, not
`{providerId}@{provider}.local` as the claim states. -/
theorem google_synthesized_email_not_local :
    ((googleVerify 0 emptyStore devProfile).1.map (fun u => u.email)) =
      Except.ok "123@google.com".data ∧
    "123@google.com".data ≠ "123@google.local".data := ⟨rfl, by decide⟩

/-- C5 (amended): auto-provisioning for an unseen Google profile (with a
fresh email) creates a user whose username is the display name with
whitespace runs replaced by "." and lowercased, whose role is "user"
regardless of the profile, and whose email is the first profile email
when present and non-empty, otherwise the synthesized
`{providerId}@google.com`. -/
theorem googleVerify_autoprovision (now : Nat) (st : Storage) (profile : GoogleProfile)
    (habs : getUserByProviderId st "google".data profile.id = none)
    (hfresh : (st.users.any fun w => decide (w.email = googleProfileEmail profile)) = false) :
    ((googleVerify now st profile).1.map (fun u => u.username)) =
      Except.ok (toLowerStr (replaceWsRuns profile.displayName)) ∧
    ((googleVerify now st profile).1.map (fun u => u.role)) = Except.ok "user".data ∧
    ((googleVerify now st profile).1.map (fun u => u.email)) =
      Except.ok (googleProfileEmail profile) := by
  simp only [googleVerify, createUser, habs, hfresh]
  exact ⟨rfl, rfl, rfl⟩

/-- Witness for the amended C5 at the concrete profile with id "123",
display name "Dev User" and no email values, against the empty state. -/
theorem googleVerify_autoprovision_witness :
    ((googleVerify 0 emptyStore devProfile).1.map (fun u => u.username)) =
      Except.ok (toLowerStr (replaceWsRuns devProfile.displayName)) ∧
    ((googleVerify 0 emptyStore devProfile).1.map (fun u => u.role)) = Except.ok "user".data ∧
    ((googleVerify 0 emptyStore devProfile).1.map (fun u => u.email)) =
      Except.ok (googleProfileEmail devProfile) :=
  googleVerify_autoprovision 0 emptyStore devProfile rfl rfl

/-- C6 counterexample: from a state holding the user "alice" with provider
identity (google, g1), a storage-level create with the same username and
the same provider identity (and a fresh email) succeeds, leaving two rows
with that username and two rows with that provider pair — so neither
usernames nor (provider, providerId) pairs are enforced unique by a
storage-layer constraint, and two racing creates can both succeed. -/
theorem storage_accepts_duplicate_identity :
    ((createUser gStore 0 gDupInsert).map (fun p =>
      ((p.2.users.filter (fun w => decide (w.username = "alice".data))).length,
       (p.2.users.filter (fun w =>
         decide (w.provider = "google".data ∧ w.providerId = some "g1".data))).length))) =
      Except.ok (2, 2) := rfl

/-- C6 (amended): at the storage layer only the email unique index exists —
a create against an existing email fails with the email_idx violation,
any create with a fresh email succeeds (regardless of duplicate username
or provider identity) and appends the row, email uniqueness is preserved
by successful creates, and username duplication at registration is
prevented only by the application-side pre-check of the register route. -/
theorem storage_unique_constraints (st : Storage) (now : Nat) (u : InsertUser) :
    ((st.users.any fun w => decide (w.email = u.email)) = true →
      createUser st now u = Except.error (DbError.uniqueViolation "email_idx".data)) ∧
    ((st.users.any fun w => decide (w.email = u.email)) = false →
      ∃ nu st2, createUser st now u = Except.ok (nu, st2) ∧ st2.users = st.users ++ [nu]) ∧
    (st.users.Pairwise (fun a b => a.email ≠ b.email) →
      ∀ nu st2, createUser st now u = Except.ok (nu, st2) →
      st2.users.Pairwise (fun a b => a.email ≠ b.email)) ∧
    (∀ scryptFn saltBytes sess email password name,
      (getUserByUsername st u.username).isSome = true →
      apiRegister scryptFn saltBytes now st sess u.username email password name =
        (RouteResponse.reply 400 (some "Nome de usuário já existe".data), st, sess)) := by
  refine ⟨?_, ?_, ?_, ?_⟩
  · intro h
    simp only [createUser, h]
    rfl
  · intro h
    unfold createUser
    rw [if_neg (by simp [h])]
    exact ⟨_, _, rfl, rfl⟩
  · intro hpw nu st2 hok
    unfold createUser at hok
    by_cases h : (st.users.any fun w => decide (w.email = u.email)) = true
    · rw [if_pos h] at hok
      cases hok
    · rw [if_neg h] at hok
      simp only [Except.ok.injEq, Prod.mk.injEq] at hok
      obtain ⟨hnu, hst⟩ := hok
      rw [← hst]
      simp only [List.pairwise_append, List.pairwise_singleton]
      refine ⟨hpw, trivial, ?_⟩
      intro a ha b hb
      simp only [List.mem_singleton] at hb
      subst hb
      intro heq
      exact h (List.any_eq_true.mpr ⟨a, ha, by simp [heq]⟩)
  · intro scryptFn saltBytes sess email password name hsome
    rcases hx : getUserByUsername st u.username with _ | w
    · rw [hx] at hsome
      simp at hsome
    · simp only [apiRegister, hx]

/-- Witness for the amended C6: a create reusing `gUser`'s email fails with
the email_idx violation, and registering the taken username "alice" is
rejected 400 by the route's pre-check. -/
theorem storage_unique_constraints_witness :
    createUser gStore 0 { username := "zed".data, email := "a1@x.com".data } =
      Except.error (DbError.uniqueViolation "email_idx".data) ∧
    apiRegister modelScrypt [7] 0 gStore none "alice".data "zz@x.com".data "p".data none =
      (RouteResponse.reply 400 (some "Nome de usuário já existe".data), gStore, none) :=
  ⟨(storage_unique_constraints gStore 0
      { username := "zed".data, email := "a1@x.com".data }).1 rfl,
   (storage_unique_constraints gStore 0 gDupInsert).2.2.2
      modelScrypt [7] none "zz@x.com".data "p".data none rfl⟩

/-- C7 counterexample: a successful first-time federated verification (fresh
Google profile against the empty state) redirects home and emits TWO
Activity records — a "register" during verification and a "login" after
session establishment — contradicting "exactly one ... never both". -/
theorem google_first_verification_two_records :
    (googleCallback 3 emptyStore none freshProfile).1 = RouteResponse.redirect "/".data ∧
    ((googleCallback 3 emptyStore none freshProfile).2.1.activities.map (fun a => a.action)) =
      ["register".data, "login".data] := ⟨rfl, rfl⟩

/-- C7 (amended): a successful local login emits exactly one "login" record;
a successful federated verification of a known profile emits exactly one
"login" record; a successful first-time federated verification emits a
"register" record during provisioning followed by a "login" record after
session establishment — two records, not one. -/
theorem verification_activity_emission (scryptFn : Str → Str → List Nat) (now : Nat)
    (st : Storage) (sess : Session) (username password : Str) (profile : GoogleProfile) :
    (∀ user, localStrategyVerify scryptFn st username password = Except.ok (some user) →
      ((apiLogin scryptFn now st sess username password).2.1.activities.map (fun a => a.action)) =
        st.activities.map (fun a => a.action) ++ ["login".data]) ∧
    (∀ user, getUserByProviderId st "google".data profile.id = some user →
      ((googleCallback now st sess profile).2.1.activities.map (fun a => a.action)) =
        st.activities.map (fun a => a.action) ++ ["login".data]) ∧
    (getUserByProviderId st "google".data profile.id = none →
      (st.users.any fun w => decide (w.email = googleProfileEmail profile)) = false →
      ((googleCallback now st sess profile).2.1.activities.map (fun a => a.action)) =
        st.activities.map (fun a => a.action) ++ ["register".data, "login".data]) := by
  refine ⟨?_, ?_, ?_⟩
  · intro user hv
    simp only [apiLogin, hv]
    simp [createActivity]
  · intro user hu
    simp only [googleCallback, googleVerify, hu]
    simp [createActivity]
  · intro habs hfresh
    simp only [googleCallback, googleVerify, createUser, habs, hfresh]
    simp [createActivity]

/-- Witness for the amended C7: carol's local login emits one "login";
the known Google profile g1 emits one "login"; the fresh profile against
the empty state emits "register" then "login". -/
theorem verification_activity_emission_witness :
    ((apiLogin modelScrypt 4 carolStore none "carol".data "secret".data).2.1.activities.map
      (fun a => a.action)) = ["login".data] ∧
    ((googleCallback 3 gStore none g1Profile).2.1.activities.map (fun a => a.action)) =
      ["login".data] ∧
    ((googleCallback 3 emptyStore none freshProfile).2.1.activities.map (fun a => a.action)) =
      ["register".data, "login".data] := by
  refine ⟨?_, ?_, ?_⟩
  · have h := (verification_activity_emission modelScrypt 4 carolStore none
      "carol".data "secret".data freshProfile).1 carol rfl
    simpa [carolStore] using h
  · have h := (verification_activity_emission modelScrypt 3 gStore none
      [] [] g1Profile).2.1 gUser rfl
    simpa [gStore] using h
  · have h := (verification_activity_emission modelScrypt 3 emptyStore none
      [] [] freshProfile).2.2 rfl rfl
    simpa [emptyStore] using h

end EventoAuth
